import Mathlib

/-!
Verification of the KanbanFlow MCP server (a tool-registry layer over the
KanbanFlow REST API) against its natural-language specification.

The tool handlers and their argument schemas are embedded from the server
entry file (`src/unnamed/part_000`); the request/response record shapes are
embedded from `src/kanbanflow/types.ts`.  The remote-client implementation
(`kanban-service.ts`) is not among the sources; the few remote-client
behaviours that claims depend on are modelled from the specification and are
marked `Modelled from the spec:` in their doc comments.

JavaScript-specific semantics are embedded explicitly: `undefined`-ness of an
optional argument is `Option.none`, JS truthiness of strings/numbers/objects
is given by the `jsTruthy*` functions, and a narrative built by repeated
`+= "...\n"` is modelled as the list of its lines.
-/

namespace KanbanMCP

/-- A JavaScript primitive value, as carried by tool-call arguments and
update payloads (the schemas in the source only involve strings, numbers
and booleans). -/
inductive JSValue where
  | str (s : String)
  | num (n : Int)
  | bool (b : Bool)
deriving DecidableEq, Repr

/-- JS truthiness of an optional string field (`undefined` and `""` are
falsy). -/
def jsTruthyStr : Option String → Bool
  | none => false
  | some s => s ≠ ""

/-- JS truthiness of an optional numeric field (`undefined` and `0` are
falsy). -/
def jsTruthyNum : Option Int → Bool
  | none => false
  | some n => n ≠ 0

/-- JS truthiness of an optional boolean field. -/
def jsTruthyBool : Option Bool → Bool
  | none => false
  | some b => b

/-- JS `a || d` for an optional string `a` and a string default `d`. -/
def jsOrStr (a : Option String) (d : String) : String :=
  match a with
  | none => d
  | some s => if s ≠ "" then s else d

/-- JS `s || d` for a (non-optional) string `s`. -/
def strOr (s d : String) : String :=
  if s ≠ "" then s else d

/-- One optional entry of a sparse JS object: `if (x !== undefined) o.k = x`
contributes `[(k, v)]` when `x = some v` and nothing when `x = none`. -/
def optEntry (k : String) : Option JSValue → List (String × JSValue)
  | some v => [(k, v)]
  | none => []

/-! ## Record shapes from `src/kanbanflow/types.ts` -/

/-- `KanbanError` (types.ts): the error shape thrown by the remote client. -/
structure KanbanError where
  message : String
  status : Option Int := none
deriving DecidableEq, Repr

/-- A label on a task (types.ts `AddLabelRequest` / task `labels` entries). -/
structure Label where
  name : String
  pinned : Bool := false
deriving DecidableEq, Repr

/-- A subtask of a task (types.ts `AddSubtaskRequest` / task `subTasks`
entries). -/
structure Subtask where
  name : String
  finished : Bool := false
  userId : Option String := none
  dueDateTimestamp : Option String := none
  dueDateTimestampLocal : Option String := none
deriving DecidableEq, Repr

/-- The `number` field of a task (types.ts `KanbanTask.number`); `pfx`
embeds the optional `prefix` property. -/
structure TaskNumber where
  pfx : Option String := none
  value : Int
deriving DecidableEq, Repr

/-- A date entry of a task (spec §3; rendered by `get-task-details`). -/
structure DateEntry where
  dateType : Option String := none
  dueTimestamp : Option String := none
  targetColumnId : Option String := none
  status : Option String := none
deriving DecidableEq, Repr

/-- A relation entry of a task (rendered by `get-task-details`). -/
structure Relation where
  type : Option String := none
  taskId : Option String := none
  relatedTaskId : Option String := none
  taskName : Option String := none
  relatedTaskName : Option String := none
  boardId : Option String := none
deriving DecidableEq, Repr

/-- `KanbanTask` (types.ts): the task record returned by the remote client.
`id` embeds the `_id` property. -/
structure KanbanTask where
  id : String
  name : String
  columnId : String
  position : Option Int := none
  description : Option String := none
  color : Option String := none
  number : Option TaskNumber := none
  responsibleUserId : Option String := none
  totalSecondsSpent : Option Int := none
  totalSecondsEstimate : Option Int := none
  pointsEstimate : Option Int := none
  groupingDate : Option String := none
  dates : Option (List DateEntry) := none
  subTasks : Option (List Subtask) := none
  labels : Option (List Label) := none
  relations : Option (List Relation) := none
deriving DecidableEq, Repr

/-- `KanbanAllTasksResponse` (types.ts): one per-column record of the
`get-all-tasks` remote response. -/
structure KanbanAllTasksResponse where
  columnId : String
  columnName : String
  tasksLimited : Bool
  tasks : List KanbanTask
deriving DecidableEq, Repr

/-- One entry of `addedSubtasks` in the bulk-add / composite-create
responses (types.ts). -/
structure AddedSubtask where
  name : String
  insertIndex : Nat
deriving DecidableEq, Repr

/-- `CreateTaskWithSubtasksResponse` (types.ts). -/
structure CreateTaskWithSubtasksResponse where
  taskId : String
  taskName : String
  addedSubtasks : List AddedSubtask
  totalSubtasks : Nat
deriving DecidableEq, Repr

/-! ## Argument schemas (zod declarations in the server entry file)

Each `zod*Accepts` function is the acceptance predicate of the indicated zod
schema expression; `optField` is zod `.optional()` (an absent argument always
validates). -/

/-- The closed ten-value color enumeration of
`z.enum(['yellow', 'white', 'red', 'green', 'blue', 'purple', 'orange',
'cyan', 'brown', 'magenta'])` used by `update-task` and
`create-task-with-subtasks`. -/
def kanbanColors : List String :=
  ["yellow", "white", "red", "green", "blue", "purple", "orange", "cyan",
   "brown", "magenta"]

/-- `z.string()`. -/
def zodStringAccepts : JSValue → Bool
  | .str _ => true
  | _ => false

/-- `z.number()`. -/
def zodNumberAccepts : JSValue → Bool
  | .num _ => true
  | _ => false

/-- `z.boolean()`. -/
def zodBooleanAccepts : JSValue → Bool
  | .bool _ => true
  | _ => false

/-- The color schema `z.enum([...kanbanColors])`: exactly the ten
enumerated strings are accepted. -/
def zodColorAccepts : JSValue → Bool
  | .str s => kanbanColors.contains s
  | _ => false

/-- The position schema `z.union([z.string(), z.number()])` used by
`update-task` and `create-task-with-subtasks`. -/
def zodPositionAccepts : JSValue → Bool
  | .str _ => true
  | .num _ => true
  | _ => false

/-- zod `.optional()`: an absent field validates; a present one must
satisfy the underlying schema. -/
def optField (f : JSValue → Bool) : Option JSValue → Bool
  | none => true
  | some v => f v

/-! ## Tool argument records and sparse update builders

Each `*Args` structure is the destructured argument record of the
corresponding handler, and each `build*Updates` function is the handler's
`// Build update object with only provided properties` block, transcribed
line by line. -/

/-- Arguments of the `update-task` tool. -/
structure UpdateTaskArgs where
  taskId : JSValue
  name : Option JSValue := none
  columnId : Option JSValue := none
  description : Option JSValue := none
  color : Option JSValue := none
  position : Option JSValue := none
  responsibleUserId : Option JSValue := none
  totalSecondsEstimate : Option JSValue := none
  pointsEstimate : Option JSValue := none
deriving DecidableEq, Repr

/-- Validation of `update-task` arguments against the declared zod
schema. -/
def validateUpdateTaskArgs (a : UpdateTaskArgs) : Bool :=
  zodStringAccepts a.taskId
  && optField zodStringAccepts a.name
  && optField zodStringAccepts a.columnId
  && optField zodStringAccepts a.description
  && optField zodColorAccepts a.color
  && optField zodPositionAccepts a.position
  && optField zodStringAccepts a.responsibleUserId
  && optField zodNumberAccepts a.totalSecondsEstimate
  && optField zodNumberAccepts a.pointsEstimate

/-- The sparse update object built by the `update-task` handler: one
`if (x !== undefined) updates.x = x` line per optional field, in source
order. -/
def buildTaskUpdates (a : UpdateTaskArgs) : List (String × JSValue) :=
  optEntry "name" a.name
  ++ optEntry "columnId" a.columnId
  ++ optEntry "description" a.description
  ++ optEntry "color" a.color
  ++ optEntry "position" a.position
  ++ optEntry "responsibleUserId" a.responsibleUserId
  ++ optEntry "totalSecondsEstimate" a.totalSecondsEstimate
  ++ optEntry "pointsEstimate" a.pointsEstimate

/-- Arguments of the `update-subtask-by-position` tool (besides `taskId`
and `index`). -/
structure UpdateSubtaskArgs where
  name : Option JSValue := none
  finished : Option JSValue := none
  userId : Option JSValue := none
  dueDateTimestamp : Option JSValue := none
  dueDateTimestampLocal : Option JSValue := none
deriving DecidableEq, Repr

/-- The sparse update object built by the `update-subtask-by-position`
handler. -/
def buildSubtaskUpdates (a : UpdateSubtaskArgs) : List (String × JSValue) :=
  optEntry "name" a.name
  ++ optEntry "finished" a.finished
  ++ optEntry "userId" a.userId
  ++ optEntry "dueDateTimestamp" a.dueDateTimestamp
  ++ optEntry "dueDateTimestampLocal" a.dueDateTimestampLocal

/-- Arguments of the `update-label` tool (besides `taskId` and
`labelName`). -/
structure UpdateLabelArgs where
  name : Option JSValue := none
  pinned : Option JSValue := none
deriving DecidableEq, Repr

/-- The sparse update object built by the `update-label` handler. -/
def buildLabelUpdates (a : UpdateLabelArgs) : List (String × JSValue) :=
  optEntry "name" a.name ++ optEntry "pinned" a.pinned

/-- Arguments of the `update-comment` tool (besides `taskId` and
`commentId`). -/
structure UpdateCommentArgs where
  text : Option JSValue := none
  authorUserId : Option JSValue := none
  createdTimestamp : Option JSValue := none
  updatedTimestamp : Option JSValue := none
deriving DecidableEq, Repr

/-- The sparse update object built by the `update-comment` handler. -/
def buildCommentUpdates (a : UpdateCommentArgs) : List (String × JSValue) :=
  optEntry "text" a.text
  ++ optEntry "authorUserId" a.authorUserId
  ++ optEntry "createdTimestamp" a.createdTimestamp
  ++ optEntry "updatedTimestamp" a.updatedTimestamp

/-! ## The tool catalog and the per-tool error boundary -/

/-- The sixteen tools registered with `server.tool(...)`, in registration
order. -/
inductive ToolName where
  | getBoard
  | createTask
  | getTasks
  | getTaskDetails
  | updateTask
  | getAllTasks
  | addSubtask
  | updateSubtaskByPosition
  | addLabel
  | updateLabel
  | setTaskDueDate
  | updateCustomField
  | addComment
  | updateComment
  | addSubtasks
  | createTaskWithSubtasks
deriving DecidableEq, Repr

/-- A tool result returned over the MCP boundary: a list of text content
blocks (`{ content: [{ type: "text", text }] }`).  Handlers only ever
return this shape; there is no error/fault variant. -/
structure ToolResult where
  content : List String
deriving DecidableEq, Repr

/-- The catch-branch message of each tool handler, transcribed literally
from the source (`catch (error) { ... text: \x60Failed to ...\x60 }`). -/
def catchMessage : ToolName → String → String
  | .getBoard, m => "Failed to get board: " ++ m
  | .createTask, m => "Failed to create task: " ++ m
  | .getTasks, m => "Failed to get tasks: " ++ m
  | .getTaskDetails, m => "Failed to get task details: " ++ m
  | .updateTask, m => "Failed to update task: " ++ m
  | .getAllTasks, m => "Failed to get all tasks: " ++ m
  | .addSubtask, m => "Failed to add subtask: " ++ m
  | .updateSubtaskByPosition, m => "Failed to update subtask: " ++ m
  | .addLabel, m => "Failed to add label: " ++ m
  | .updateLabel, m => "Failed to update label: " ++ m
  | .setTaskDueDate, m => "Failed to set due date: " ++ m
  | .updateCustomField, m => "Failed to update custom field: " ++ m
  | .addComment, m => "Failed to add comment: " ++ m
  | .updateComment, m => "Failed to update comment: " ++ m
  | .addSubtasks, m => "Failed to add subtasks: " ++ m
  | .createTaskWithSubtasks, m => "Failed to create task with subtasks: " ++ m

/-- The `<verb>` of each tool's failure message. -/
def failVerb : ToolName → String
  | .getBoard => "get board"
  | .createTask => "create task"
  | .getTasks => "get tasks"
  | .getTaskDetails => "get task details"
  | .updateTask => "update task"
  | .getAllTasks => "get all tasks"
  | .addSubtask => "add subtask"
  | .updateSubtaskByPosition => "update subtask"
  | .addLabel => "add label"
  | .updateLabel => "update label"
  | .setTaskDueDate => "set due date"
  | .updateCustomField => "update custom field"
  | .addComment => "add comment"
  | .updateComment => "update comment"
  | .addSubtasks => "add subtasks"
  | .createTaskWithSubtasks => "create task with subtasks"

/-- The try/catch boundary of every tool handler: the handler body either
produces a success result or throws a `KanbanError`; the catch branch turns
any thrown error into a normal text result.  `runTool` is a total function
into `ToolResult`, so no exception can cross the tool-invocation
boundary. -/
def runTool (t : ToolName) (outcome : Except KanbanError ToolResult) :
    ToolResult :=
  match outcome with
  | .ok r => r
  | .error e => ⟨[catchMessage t e.message]⟩

/-! ## Success narratives

The source builds each narrative as a single string by repeated
`response += "...\n"`; here a narrative is the list of the lines so
appended, one list element per `+=` of a line. -/

/-- `${desc.substring(0, 100)}${desc.length > 100 ? '...' : ''}`. -/
def trunc100 (s : String) : String :=
  s.take 100 ++ (if s.length > 100 then "..." else "")

/-- A subtask line of the `get-task-details` narrative. -/
def subtaskDetailLine (i : Nat) (s : Subtask) : String :=
  "  " ++ toString (i + 1) ++ ". "
  ++ (if s.finished then "✅" else "⬜") ++ " "
  ++ strOr s.name "Unnamed subtask"
  ++ (if jsTruthyStr s.userId then
        " (assigned: " ++ s.userId.getD "" ++ ")" else "")
  ++ (if jsTruthyStr s.dueDateTimestamp then
        " (due: " ++ s.dueDateTimestamp.getD "" ++ ")" else "")

/-- A date line of the `get-task-details` narrative. -/
def dateDetailLine (i : Nat) (d : DateEntry) : String :=
  "  " ++ toString (i + 1) ++ ". "
  ++ jsOrStr d.dateType "dueDate" ++ ": " ++ jsOrStr d.dueTimestamp "not set"
  ++ (if jsTruthyStr d.targetColumnId then
        " (target column: " ++ d.targetColumnId.getD "" ++ ")" else "")
  ++ (if jsTruthyStr d.status then
        " [" ++ d.status.getD "" ++ "]" else "")

/-- A relation line of the `get-task-details` narrative. -/
def relationDetailLine (i : Nat) (r : Relation) : String :=
  "  " ++ toString (i + 1) ++ ". "
  ++ jsOrStr r.type "related" ++ ": "
  ++ jsOrStr r.taskId (jsOrStr r.relatedTaskId "unknown")
  ++ (if jsTruthyStr r.taskName || jsTruthyStr r.relatedTaskName then
        " \"" ++ jsOrStr r.taskName (jsOrStr r.relatedTaskName "") ++ "\""
      else "")
  ++ (if jsTruthyStr r.boardId then
        " (board: " ++ r.boardId.getD "" ++ ")" else "")

/-- `if (x && x.length > 0) { ...render the collection... }`. -/
def listSection {α : Type} (o : Option (List α)) (f : List α → List String) :
    List String :=
  match o with
  | some l => if 0 < l.length then f l else []
  | none => []

/-- The full `get-task-details` success narrative (handler lines building
`formattedDetails`). -/
def formatTaskDetails (t : KanbanTask) : List String :=
  ["Task Details:",
   "- ID: " ++ t.id,
   "- Name: " ++ t.name,
   "- Column ID: " ++ t.columnId]
  ++ (if jsTruthyStr t.description then
        ["- Description: " ++ t.description.getD ""] else [])
  ++ (if jsTruthyStr t.color then
        ["- Color: " ++ t.color.getD ""] else [])
  ++ (if jsTruthyNum t.position then
        ["- Position: " ++ toString (t.position.getD 0)] else [])
  ++ (match t.number with
      | some nb => ["- Number: " ++ jsOrStr nb.pfx "" ++ toString nb.value]
      | none => [])
  ++ (if jsTruthyStr t.responsibleUserId then
        ["- Responsible User: " ++ t.responsibleUserId.getD ""] else [])
  ++ (if jsTruthyNum t.totalSecondsSpent then
        ["- Time Spent: " ++ toString (t.totalSecondsSpent.getD 0)
         ++ " seconds"] else [])
  ++ (if jsTruthyNum t.totalSecondsEstimate then
        ["- Time Estimate: " ++ toString (t.totalSecondsEstimate.getD 0)
         ++ " seconds"] else [])
  ++ (if jsTruthyNum t.pointsEstimate then
        ["- Points Estimate: " ++ toString (t.pointsEstimate.getD 0)]
      else [])
  ++ (if jsTruthyStr t.groupingDate then
        ["- Grouping Date: " ++ t.groupingDate.getD ""] else [])
  ++ listSection t.subTasks (fun l =>
       ("- Subtasks (" ++ toString l.length ++ "):")
       :: l.enum.map (fun p => subtaskDetailLine p.1 p.2))
  ++ listSection t.labels (fun l =>
       ["- Labels: " ++ String.intercalate ", " (l.map Label.name)])
  ++ listSection t.dates (fun l =>
       ("- Dates (" ++ toString l.length ++ "):")
       :: l.enum.map (fun p => dateDetailLine p.1 p.2))
  ++ listSection t.relations (fun l =>
       ("- Relations (" ++ toString l.length ++ "):")
       :: l.enum.map (fun p => relationDetailLine p.1 p.2))

/-- The `update-task` success narrative (handler lines building
`response` from the re-fetched task). -/
def formatUpdateTask (t : KanbanTask) : List String :=
  ["Successfully updated task!",
   "- ID: " ++ t.id,
   "- Name: " ++ t.name,
   "- Column ID: " ++ t.columnId]
  ++ (if jsTruthyStr t.description then
        ["- Description: " ++ t.description.getD ""] else [])
  ++ (if jsTruthyStr t.color then
        ["- Color: " ++ t.color.getD ""] else [])
  ++ (if jsTruthyNum t.position then
        ["- Position: " ++ toString (t.position.getD 0)] else [])
  ++ (if jsTruthyStr t.groupingDate then
        ["- Grouping Date: " ++ t.groupingDate.getD ""] else [])

/-- A task line of the `get-all-tasks` narrative. -/
def allTasksItemLine (i : Nat) (t : KanbanTask) : String :=
  "   " ++ toString (i + 1) ++ ". " ++ t.name
  ++ (if jsTruthyStr t.color then
        " [" ++ (t.color.getD "").toUpper ++ "]" else "")
  ++ (if jsTruthyStr t.description then
        " - " ++ trunc100 (t.description.getD "") else "")
  ++ " [ID: " ++ t.id ++ "]"

/-- The truncation notice emitted when `column.tasksLimited` is set. -/
def truncationNotice : String :=
  "   ⚠️ This column has more tasks (limited to 20)"

/-- The per-column block of the `get-all-tasks` narrative. -/
def formatColumn (c : KanbanAllTasksResponse) : List String :=
  (("📂 **" ++ c.columnName ++ "** (" ++ toString c.tasks.length
    ++ " tasks):")
   :: (if c.tasks.length = 0 then ["   - No tasks in this column"]
       else c.tasks.enum.map (fun p => allTasksItemLine p.1 p.2)))
  ++ (if c.tasksLimited then [truncationNotice] else [])
  ++ [""]

/-- The full `get-all-tasks` narrative. -/
def formatAllTasks (rs : List KanbanAllTasksResponse) : List String :=
  "All Tasks by Column:" :: "" :: (rs.map formatColumn).flatten

/-! ## Tool-level call traces

The MCP framework validates the argument record against the declared zod
schema before the handler runs (spec §6); a handler therefore issues its
remote calls only when validation succeeds. -/

/-- One subtask record of the `subtasks` array argument of `add-subtasks` /
`create-task-with-subtasks`, as raw argument values. -/
structure SubtaskArgItem where
  name : JSValue
  finished : Option JSValue := none
  userId : Option JSValue := none
  dueDateTimestamp : Option JSValue := none
  dueDateTimestampLocal : Option JSValue := none
deriving DecidableEq, Repr

/-- Validation of one subtask record against its declared zod object
schema. -/
def validateSubtaskArgItem (s : SubtaskArgItem) : Bool :=
  zodStringAccepts s.name
  && optField zodBooleanAccepts s.finished
  && optField zodStringAccepts s.userId
  && optField zodStringAccepts s.dueDateTimestamp
  && optField zodStringAccepts s.dueDateTimestampLocal

/-- Arguments of the `create-task-with-subtasks` tool. -/
structure CreateTWSArgs where
  name : JSValue
  columnId : JSValue
  description : Option JSValue := none
  color : Option JSValue := none
  position : Option JSValue := none
  subtasks : List SubtaskArgItem := []
deriving DecidableEq, Repr

/-- Validation of `create-task-with-subtasks` arguments against the
declared zod schema. -/
def validateCreateTWSArgs (a : CreateTWSArgs) : Bool :=
  zodStringAccepts a.name
  && zodStringAccepts a.columnId
  && optField zodStringAccepts a.description
  && optField zodColorAccepts a.color
  && optField zodPositionAccepts a.position
  && a.subtasks.all validateSubtaskArgItem

/-- A remote call issued by a tool handler. -/
inductive RemoteCall where
  | updateTaskCall (taskId : JSValue) (updates : List (String × JSValue))
  | getTaskDetailsCall (taskId : JSValue)
  | createTaskWithSubtasksCall (a : CreateTWSArgs)
deriving DecidableEq, Repr

/-- The remote calls issued by a `update-task` invocation: nothing when
schema validation fails, otherwise `kanbanService.updateTask` with the
sparse update object followed by the re-fetch
`kanbanService.getTaskDetails`. -/
def updateTaskToolCalls (a : UpdateTaskArgs) : List RemoteCall :=
  if validateUpdateTaskArgs a then
    [.updateTaskCall a.taskId (buildTaskUpdates a),
     .getTaskDetailsCall a.taskId]
  else []

/-- The remote calls issued by a `create-task-with-subtasks` invocation:
nothing when schema validation fails, otherwise the composite service call
followed by the re-fetch of the created task. -/
def createTWSToolCalls (a : CreateTWSArgs) (newTaskId : JSValue) :
    List RemoteCall :=
  if validateCreateTWSArgs a then
    [.createTaskWithSubtasksCall a, .getTaskDetailsCall newTaskId]
  else []

/-! ## Remote-client operations

`kanban-service.ts` is not among the sources; the operations below are
modelled from the specification (§4.2) and say so in their doc comments. -/

/-- A write request submitted to the remote board API. -/
inductive RemoteWrite where
  | replaceSubtasks (taskId : String) (subTasks : List Subtask)
  | replaceLabels (taskId : String) (labels : List Label)
deriving DecidableEq, Repr

/-- `UpdateSubtaskRequest` (types.ts): the partial update applied to one
subtask. -/
structure UpdateSubtaskRequest where
  name : Option String := none
  finished : Option Bool := none
  userId : Option String := none
  dueDateTimestamp : Option String := none
  dueDateTimestampLocal : Option String := none
deriving DecidableEq, Repr

/-- `UpdateLabelRequest` (types.ts): the partial update applied to one
label. -/
structure UpdateLabelRequest where
  name : Option String := none
  pinned : Option Bool := none
deriving DecidableEq, Repr

/-- Applying a partial subtask update to one element: supplied fields
replace the element's fields, omitted fields keep them. -/
def applySubtaskPatch (s : Subtask) (u : UpdateSubtaskRequest) : Subtask :=
  { name := u.name.getD s.name,
    finished := u.finished.getD s.finished,
    userId := match u.userId with
      | some v => some v
      | none => s.userId,
    dueDateTimestamp := match u.dueDateTimestamp with
      | some v => some v
      | none => s.dueDateTimestamp,
    dueDateTimestampLocal := match u.dueDateTimestampLocal with
      | some v => some v
      | none => s.dueDateTimestampLocal }

/-- Modelled from the spec: `KanbanService.updateSubtaskByPosition` of the
missing `kanban-service.ts`, per §4.2 — fetch the current task, validate
the index against the current subtask count, apply the partial update to
that one element, and submit the entire modified array back; an
out-of-range index yields a descriptive error and no write.  The result
pairs the outcome with the list of writes issued to the remote service. -/
def updateSubtaskByPosition (t : KanbanTask) (index : Nat)
    (u : UpdateSubtaskRequest) :
    Except String (List Subtask) × List RemoteWrite :=
  let cur := t.subTasks.getD []
  if h : index < cur.length then
    let updated := cur.set index (applySubtaskPatch (cur.get ⟨index, h⟩) u)
    (.ok updated, [.replaceSubtasks t.id updated])
  else
    (.error ("Subtask index " ++ toString index
      ++ " is out of range: task has " ++ toString cur.length
      ++ " subtasks"), [])

/-- Applying a partial label update to one element. -/
def applyLabelPatch (l : Label) (u : UpdateLabelRequest) : Label :=
  { name := u.name.getD l.name, pinned := u.pinned.getD l.pinned }

/-- The first label whose name equals `labelName` (exact, case-sensitive
string equality) receives the patch; every other label is kept. -/
def patchFirstLabel (labelName : String) (u : UpdateLabelRequest) :
    List Label → List Label
  | [] => []
  | l :: ls =>
    if l.name = labelName then applyLabelPatch l u :: ls
    else l :: patchFirstLabel labelName u ls

/-- Modelled from the spec: `KanbanService.updateLabel` of the missing
`kanban-service.ts`, per §4.2 — fetch the current task, find the first
label whose name equals the given name, apply the partial update to that
element, and replace the full label array; no match yields a descriptive
error and no write. -/
def updateLabel (t : KanbanTask) (labelName : String)
    (u : UpdateLabelRequest) :
    Except String (List Label) × List RemoteWrite :=
  let cur := t.labels.getD []
  if cur.any (fun l => l.name = labelName) then
    let updated := patchFirstLabel labelName u cur
    (.ok updated, [.replaceLabels t.id updated])
  else
    (.error ("No label named \"" ++ labelName ++ "\" found on task"), [])

/-- The full task list of one column, before the remote client caps it. -/
structure ColumnState where
  columnId : String
  columnName : String
  tasks : List KanbanTask
deriving DecidableEq, Repr

/-- Modelled from the spec: the per-column record produced by
`KanbanService.getAllTasks` of the missing `kanban-service.ts`, per §4.1 —
each column's returned task list is capped at 20 and `tasksLimited` flags
the truncation. -/
def capColumnTasks (c : ColumnState) : KanbanAllTasksResponse :=
  { columnId := c.columnId,
    columnName := c.columnName,
    tasksLimited := decide (20 < c.tasks.length),
    tasks := c.tasks.take 20 }

/-- Modelled from the spec: `KanbanService.getAllTasks`, one capped record
per column. -/
def getAllTasksService (cols : List ColumnState) :
    List KanbanAllTasksResponse :=
  cols.map capColumnTasks

/-- One subtask of the `subtasks` array of the bulk-add / composite-create
requests (types.ts). -/
structure SubtaskInput where
  name : String
  finished : Option Bool := none
  userId : Option String := none
  dueDateTimestamp : Option String := none
  dueDateTimestampLocal : Option String := none
deriving DecidableEq, Repr

/-- `CreateTaskWithSubtasksRequest` (types.ts). -/
structure CreateTaskWithSubtasksRequest where
  name : String
  columnId : String
  description : Option String := none
  color : Option String := none
  position : Option JSValue := none
  subtasks : List SubtaskInput := []
deriving DecidableEq, Repr

/-- A call issued by the composite create operation to the remote board
API. -/
inductive ServiceCall where
  | createTask (name columnId : String) (description color : Option String)
      (position : Option JSValue)
  | addSubtask (taskId : String) (subtask : SubtaskInput)
deriving DecidableEq, Repr

/-- Modelled from the spec: `KanbanService.createTaskWithSubtasks` of the
missing `kanban-service.ts`, per §4.2 — create the task, then issue one
subtask-add call per subtask in the order supplied, collecting each
insertion index; the remote service appends each subtask, so the i-th add
on the fresh task reports insertion index i.  `newTaskId` is the id the
remote create call returns. -/
def createTaskWithSubtasks (newTaskId : String)
    (req : CreateTaskWithSubtasksRequest) :
    CreateTaskWithSubtasksResponse × List ServiceCall :=
  ({ taskId := newTaskId,
     taskName := req.name,
     addedSubtasks := req.subtasks.enum.map (fun p =>
       { name := p.2.name, insertIndex := p.1 }),
     totalSubtasks := req.subtasks.length },
   .createTask req.name req.columnId req.description req.color req.position
     :: req.subtasks.map (fun s => .addSubtask newTaskId s))

/-! ## The setup wizard's configuration merge (`createCursorMcpConfig`) -/

/-- One `mcpServers` entry of the written configuration. -/
structure ServerEntry where
  command : Option String := none
  args : List String := []
  env : List (String × String) := []
deriving DecidableEq, Repr

/-- The parsed shape of a `.cursor/mcp.json` file: its `mcpServers` object
(absent modelled as the empty list) and its remaining top-level entries. -/
structure McpConfig where
  mcpServers : List (String × ServerEntry) := []
  otherEntries : List (String × String) := []
deriving DecidableEq, Repr

/-- The outcome of `fs.readFile` + `JSON.parse` on the pre-existing
`mcp.json`: the file may be absent, present but not valid JSON, or parsed.
In the source both failure cases land in the same `catch`, leaving
`existingConfig = {}` and `isExistingFile = false`. -/
inductive ConfigRead where
  | missing
  | unparsable
  | parsed (cfg : McpConfig)
deriving DecidableEq, Repr

/-- The JS object-spread merge
`{ ...existingConfig.mcpServers, ...mcpConfig.mcpServers }`: an existing
`"kanban-flow"` key is overwritten in place, any other key keeps its value,
and a fresh `"kanban-flow"` entry is appended when none exists. -/
def mergeServers (existing : List (String × ServerEntry))
    (entry : ServerEntry) : List (String × ServerEntry) :=
  if existing.any (fun p => p.1 = "kanban-flow") then
    existing.map (fun p =>
      if p.1 = "kanban-flow" then (p.1, entry) else p)
  else existing ++ [("kanban-flow", entry)]

/-- `createCursorMcpConfig` (server entry file): computes the merged
configuration that is written to `mcp.json` and whether a backup copy of
the pre-existing file is made.  A backup is created only when
`isExistingFile && hasExistingServers`, i.e. when the pre-existing file
parsed as JSON and its `mcpServers` object had at least one key. -/
def createCursorMcpConfig (read : ConfigRead) (entry : ServerEntry) :
    McpConfig × Bool :=
  let existingConfig : McpConfig :=
    match read with
    | .parsed cfg => cfg
    | _ => {}
  let isExistingFile : Bool :=
    match read with
    | .parsed _ => true
    | _ => false
  let hasExistingServers : Bool :=
    isExistingFile && !existingConfig.mcpServers.isEmpty
  ({ mcpServers := mergeServers existingConfig.mcpServers entry,
     otherEntries := existingConfig.otherEntries },
   isExistingFile && hasExistingServers)

/-! ## Helper lemmas -/

/-- Membership in an `optEntry` segment of a sparse update object. -/
theorem optEntry_mem (k k' : String) (o : Option JSValue) (v : JSValue) :
    (k, v) ∈ optEntry k' o ↔ k = k' ∧ o = some v := by
  cases o with
  | none => simp [optEntry]
  | some w => simp [optEntry, Prod.ext_iff]; aesop

/-- Two strings whose final characters differ are different. -/
theorem string_ne_of_getLast (a b : String)
    (h : a.data.getLast? ≠ b.data.getLast?) : a ≠ b := by
  intro he
  exact h (by rw [he])

/-- Appending a nonempty string on the right fixes the final character. -/
theorem getLast_append_str (x s : String) (h : s.data ≠ []) :
    (x ++ s).data.getLast? = s.data.getLast? := by
  rw [String.data_append]
  exact List.getLast?_append_of_ne_nil _ h

/-! ## Claim theorems -/

/-- C1: every registered tool operation converts any error raised during
its execution into a normal text result reading
`Failed to <verb>: <reason>`; `runTool` is a total function into
`ToolResult`, so no exception or protocol-level fault crosses the
tool-invocation boundary. -/
theorem tool_error_boundary_uniform (t : ToolName) (e : KanbanError) :
    runTool t (.error e)
      = ⟨["Failed to " ++ failVerb t ++ ": " ++ e.message]⟩ := by
  cases t <;> rfl

/-- C2: for every subset of supplied optional arguments, the update payload
built by `update-task`, `update-subtask-by-position`, `update-label` and
`update-comment` contains exactly the explicitly-supplied fields and no
others: a key/value pair is in the payload iff that optional argument was
supplied with that value. -/
theorem sparse_update_payload_exact :
    (∀ (a : UpdateTaskArgs) (k : String) (v : JSValue),
      (k, v) ∈ buildTaskUpdates a ↔
        (k = "name" ∧ a.name = some v)
        ∨ (k = "columnId" ∧ a.columnId = some v)
        ∨ (k = "description" ∧ a.description = some v)
        ∨ (k = "color" ∧ a.color = some v)
        ∨ (k = "position" ∧ a.position = some v)
        ∨ (k = "responsibleUserId" ∧ a.responsibleUserId = some v)
        ∨ (k = "totalSecondsEstimate" ∧ a.totalSecondsEstimate = some v)
        ∨ (k = "pointsEstimate" ∧ a.pointsEstimate = some v))
    ∧ (∀ (a : UpdateSubtaskArgs) (k : String) (v : JSValue),
      (k, v) ∈ buildSubtaskUpdates a ↔
        (k = "name" ∧ a.name = some v)
        ∨ (k = "finished" ∧ a.finished = some v)
        ∨ (k = "userId" ∧ a.userId = some v)
        ∨ (k = "dueDateTimestamp" ∧ a.dueDateTimestamp = some v)
        ∨ (k = "dueDateTimestampLocal"
            ∧ a.dueDateTimestampLocal = some v))
    ∧ (∀ (a : UpdateLabelArgs) (k : String) (v : JSValue),
      (k, v) ∈ buildLabelUpdates a ↔
        (k = "name" ∧ a.name = some v)
        ∨ (k = "pinned" ∧ a.pinned = some v))
    ∧ (∀ (a : UpdateCommentArgs) (k : String) (v : JSValue),
      (k, v) ∈ buildCommentUpdates a ↔
        (k = "text" ∧ a.text = some v)
        ∨ (k = "authorUserId" ∧ a.authorUserId = some v)
        ∨ (k = "createdTimestamp" ∧ a.createdTimestamp = some v)
        ∨ (k = "updatedTimestamp" ∧ a.updatedTimestamp = some v)) := by
  refine ⟨?_, ?_, ?_, ?_⟩ <;> intro a k v <;>
    simp [buildTaskUpdates, buildSubtaskUpdates, buildLabelUpdates,
      buildCommentUpdates, optEntry_mem]

/-- C3: for every task and every index that is not below the current
number of subtasks, `update-subtask-by-position` fails with a descriptive
out-of-range error and issues no write to the remote service. -/
theorem update_subtask_out_of_range_no_write (t : KanbanTask) (index : Nat)
    (u : UpdateSubtaskRequest)
    (h : (t.subTasks.getD []).length ≤ index) :
    (∃ msg, (updateSubtaskByPosition t index u).1 = .error msg)
    ∧ (updateSubtaskByPosition t index u).2 = [] := by
  unfold updateSubtaskByPosition
  rw [dif_neg (by omega)]
  exact ⟨⟨_, rfl⟩, rfl⟩

/-- Witness for C3: on a task with one subtask, index 3 is rejected with an
error and no write is issued. -/
theorem update_subtask_out_of_range_no_write_witness :
    (∃ msg,
      (updateSubtaskByPosition
        { id := "t1", name := "T", columnId := "c1",
          subTasks := some [{ name := "a" }] } 3 {}).1
        = .error msg)
    ∧ (updateSubtaskByPosition
        { id := "t1", name := "T", columnId := "c1",
          subTasks := some [{ name := "a" }] } 3 {}).2 = [] :=
  update_subtask_out_of_range_no_write _ 3 {} (by decide)

/-- The first matching element of a label list receives the patch; labels
before it (none of which match) and after it are unchanged. -/
theorem patchFirstLabel_append (labelName : String) (u : UpdateLabelRequest)
    (pre : List Label) (l : Label) (post : List Label)
    (hpre : ∀ l' ∈ pre, l'.name ≠ labelName) (hl : l.name = labelName) :
    patchFirstLabel labelName u (pre ++ l :: post)
      = pre ++ applyLabelPatch l u :: post := by
  induction pre with
  | nil => simp [patchFirstLabel, hl]
  | cons p ps ih =>
    have hp : p.name ≠ labelName := hpre p (List.mem_cons_self p ps)
    simp only [List.cons_append, patchFirstLabel, if_neg hp]
    exact congrArg (p :: ·)
      (ih fun l' hl' => hpre l' (List.mem_cons_of_mem p hl'))

/-- C4: if no label on the task has a name exactly equal to the given name,
`update-label` fails with a descriptive not-found error and issues no
write; and when a label of that name exists the update is applied to the
first occurrence in the task's label sequence, so duplicates after it are
untouched. -/
theorem update_label_not_found_or_first_occurrence (t : KanbanTask)
    (labelName : String) (u : UpdateLabelRequest) :
    ((∀ l ∈ t.labels.getD [], l.name ≠ labelName) →
      ((∃ msg, (updateLabel t labelName u).1 = .error msg)
       ∧ (updateLabel t labelName u).2 = []))
    ∧ (∀ pre l post, t.labels.getD [] = pre ++ l :: post →
        (∀ l' ∈ pre, l'.name ≠ labelName) → l.name = labelName →
        (updateLabel t labelName u).1
          = .ok (pre ++ applyLabelPatch l u :: post)
        ∧ (updateLabel t labelName u).2
          = [.replaceLabels t.id (pre ++ applyLabelPatch l u :: post)]) := by
  constructor
  · intro hnone
    unfold updateLabel
    rw [if_neg]
    · exact ⟨⟨_, rfl⟩, rfl⟩
    · intro hany
      simp only [List.any_eq_true, decide_eq_true_eq] at hany
      obtain ⟨l, hl, he⟩ := hany
      exact hnone l hl he
  · intro pre l post hsplit hpre hl
    have hany : (t.labels.getD []).any (fun x => x.name = labelName)
        = true := by
      rw [hsplit]
      refine List.any_eq_true.mpr ⟨l, ?_, by simp [hl]⟩
      simp
    unfold updateLabel
    rw [if_pos hany, hsplit,
      patchFirstLabel_append labelName u pre l post hpre hl]
    exact ⟨rfl, rfl⟩

/-- Witness for C4: on a task with labels A, B, B — updating label "Z"
fails with no write, and updating label "B" patches only the first B. -/
theorem update_label_not_found_or_first_occurrence_witness :
    ((∃ msg,
       (updateLabel
         { id := "t1", name := "T", columnId := "c1",
           labels := some [⟨"A", false⟩, ⟨"B", false⟩, ⟨"B", true⟩] }
         "Z" {}).1 = .error msg)
     ∧ (updateLabel
         { id := "t1", name := "T", columnId := "c1",
           labels := some [⟨"A", false⟩, ⟨"B", false⟩, ⟨"B", true⟩] }
         "Z" {}).2 = [])
    ∧ (updateLabel
        { id := "t1", name := "T", columnId := "c1",
          labels := some [⟨"A", false⟩, ⟨"B", false⟩, ⟨"B", true⟩] }
        "B" { name := some "C" }).1
        = .ok [⟨"A", false⟩, ⟨"C", false⟩, ⟨"B", true⟩] := by
  constructor
  · exact (update_label_not_found_or_first_occurrence
      { id := "t1", name := "T", columnId := "c1",
        labels := some [⟨"A", false⟩, ⟨"B", false⟩, ⟨"B", true⟩] }
      "Z" {}).1 (by decide)
  · have h := ((update_label_not_found_or_first_occurrence
      { id := "t1", name := "T", columnId := "c1",
        labels := some [⟨"A", false⟩, ⟨"B", false⟩, ⟨"B", true⟩] }
      "B" { name := some "C" }).2
      [⟨"A", false⟩] ⟨"B", false⟩ [⟨"B", true⟩] rfl (by decide) rfl).1
    simpa using h

/-- Two strings whose first characters differ are different. -/
theorem string_ne_of_head (a b : String)
    (h : a.data.head? ≠ b.data.head?) : a ≠ b := by
  intro he
  exact h (by rw [he])

/-- Appending on the right of a nonempty string keeps it nonempty. -/
theorem data_ne_nil_of_append_left (x y : String) (h : x.data ≠ []) :
    (x ++ y).data ≠ [] := by
  rw [String.data_append]
  exact fun hc => h (List.append_eq_nil.mp hc).1

/-- Appending on the right of a nonempty string fixes the first
character. -/
theorem head_append_left (x y : String) (h : x.data ≠ []) :
    (x ++ y).data.head? = x.data.head? := by
  rw [String.data_append]
  cases hx : x.data with
  | nil => exact absurd hx h
  | cons a l => simp

/-- A column header line of the `get-all-tasks` narrative is never the
truncation notice (they start with different characters). -/
theorem header_ne_truncationNotice (name : String) (n : Nat) :
    ("📂 **" ++ name ++ "** (" ++ toString n ++ " tasks):")
      ≠ truncationNotice := by
  apply string_ne_of_head
  have hA : ("📂 **" : String).data ≠ [] := by decide
  have h1 := data_ne_nil_of_append_left "📂 **" name hA
  have h2 := data_ne_nil_of_append_left _ "** (" h1
  have h3 := data_ne_nil_of_append_left _ (toString n) h2
  rw [head_append_left _ " tasks):" h3, head_append_left _ (toString n) h2,
    head_append_left _ "** (" h1, head_append_left _ name hA]
  decide

/-- A task line of the `get-all-tasks` narrative is never the truncation
notice (they end with different characters). -/
theorem item_ne_truncationNotice (i : Nat) (t : KanbanTask) :
    allTasksItemLine i t ≠ truncationNotice := by
  apply string_ne_of_getLast
  unfold allTasksItemLine
  rw [getLast_append_str _ "]" (by decide)]
  decide

/-- The truncation notice appears in a column's `get-all-tasks` block
exactly when the column record is flagged `tasksLimited`. -/
theorem notice_mem_formatColumn_iff (c : KanbanAllTasksResponse) :
    truncationNotice ∈ formatColumn c ↔ c.tasksLimited = true := by
  unfold formatColumn
  constructor
  · intro hm
    by_contra hflag
    rw [Bool.not_eq_true] at hflag
    by_cases h0 : c.tasks.length = 0
    · simp only [hflag, h0, if_true, if_false, Bool.false_eq_true,
        List.append_nil, List.mem_append, List.mem_cons,
        List.mem_singleton, List.not_mem_nil, or_false] at hm
      rcases hm with (hm | hm) | hm
      · exact header_ne_truncationNotice c.columnName 0 hm.symm
      · exact absurd hm (by decide)
      · exact absurd hm (by decide)
    · simp only [hflag, h0, if_true, if_false, Bool.false_eq_true,
        List.append_nil, List.mem_append, List.mem_cons,
        List.mem_singleton, List.mem_map, List.not_mem_nil,
        or_false] at hm
      rcases hm with (hm | ⟨p, _, hp⟩) | hm
      · exact header_ne_truncationNotice c.columnName c.tasks.length hm.symm
      · exact item_ne_truncationNotice p.1 p.2 hp
      · exact absurd hm (by decide)
  · intro hflag
    simp [hflag, List.mem_append]

/-- C5: `get-all-tasks` returns at most 20 tasks per column — a column with
more than 20 tasks yields exactly 20 and its block carries the truncation
notice, while a column with 20 or fewer yields all of them and its record
is not flagged; the notice appears in the narrative exactly when the flag
is set. -/
theorem get_all_tasks_caps_at_twenty (c : ColumnState) :
    (20 < c.tasks.length → (capColumnTasks c).tasks.length = 20)
    ∧ (c.tasks.length ≤ 20 → (capColumnTasks c).tasks = c.tasks)
    ∧ ((capColumnTasks c).tasksLimited = true ↔ 20 < c.tasks.length)
    ∧ (truncationNotice ∈ formatColumn (capColumnTasks c)
        ↔ 20 < c.tasks.length) := by
  refine ⟨?_, ?_, ?_, ?_⟩
  · intro h
    simp only [capColumnTasks, List.length_take]
    omega
  · intro h
    simpa [capColumnTasks] using List.take_of_length_le h
  · simp [capColumnTasks]
  · rw [notice_mem_formatColumn_iff]
    simp [capColumnTasks]

/-- Witness for C5: a column with 25 tasks yields 20 tasks and shows the
notice; a column with 5 tasks yields all 5 and shows no notice. -/
theorem get_all_tasks_caps_at_twenty_witness :
    (capColumnTasks ⟨"c1", "Col",
      List.replicate 25 { id := "x", name := "N", columnId := "c1" }⟩
      ).tasks.length = 20
    ∧ (capColumnTasks ⟨"c2", "Col2",
        List.replicate 5 { id := "x", name := "N", columnId := "c2" }⟩
        ).tasks
        = List.replicate 5 { id := "x", name := "N", columnId := "c2" }
    ∧ truncationNotice ∈ formatColumn (capColumnTasks ⟨"c1", "Col",
        List.replicate 25 { id := "x", name := "N", columnId := "c1" }⟩)
    ∧ truncationNotice ∉ formatColumn (capColumnTasks ⟨"c2", "Col2",
        List.replicate 5 { id := "x", name := "N", columnId := "c2" }⟩) :=
  ⟨(get_all_tasks_caps_at_twenty _).1 (by decide),
   (get_all_tasks_caps_at_twenty _).2.1 (by decide),
   (get_all_tasks_caps_at_twenty ⟨"c1", "Col",
      List.replicate 25 { id := "x", name := "N", columnId := "c1" }⟩
      ).2.2.2.mpr (by decide),
   fun hm => absurd ((get_all_tasks_caps_at_twenty _).2.2.2.mp hm)
     (by decide)⟩

/-- C6: the color argument of `update-task` and
`create-task-with-subtasks` is validated against the closed ten-value
enumeration — a value is accepted iff it is one of the ten strings, and an
invocation whose color lies outside the enumeration fails validation and
issues no remote call. -/
theorem color_enum_rejected_before_remote_call :
    (∀ v : JSValue, zodColorAccepts v = true ↔
      ∃ s, v = JSValue.str s ∧ s ∈ kanbanColors)
    ∧ (∀ (a : UpdateTaskArgs) (s : String), a.color = some (.str s) →
        s ∉ kanbanColors →
        validateUpdateTaskArgs a = false ∧ updateTaskToolCalls a = [])
    ∧ (∀ (a : CreateTWSArgs) (s : String) (newTaskId : JSValue),
        a.color = some (.str s) → s ∉ kanbanColors →
        validateCreateTWSArgs a = false
        ∧ createTWSToolCalls a newTaskId = []) := by
  refine ⟨?_, ?_, ?_⟩
  · intro v
    cases v <;> simp [zodColorAccepts]
  · intro a s hc hmem
    have hcol : optField zodColorAccepts a.color = false := by
      simp only [hc, optField, zodColorAccepts]
      simpa using hmem
    have hval : validateUpdateTaskArgs a = false := by
      simp only [validateUpdateTaskArgs, hcol, Bool.and_false,
        Bool.false_and]
    exact ⟨hval, by simp [updateTaskToolCalls, hval]⟩
  · intro a s newTaskId hc hmem
    have hcol : optField zodColorAccepts a.color = false := by
      simp only [hc, optField, zodColorAccepts]
      simpa using hmem
    have hval : validateCreateTWSArgs a = false := by
      simp only [validateCreateTWSArgs, hcol, Bool.and_false,
        Bool.false_and]
    exact ⟨hval, by simp [createTWSToolCalls, hval]⟩

/-- Witness for C6: the non-enumerated color `"teal"` fails validation of
`update-task` and leads to no remote call, while `"cyan"` is accepted. -/
theorem color_enum_rejected_before_remote_call_witness :
    (validateUpdateTaskArgs
      { taskId := .str "t1", color := some (.str "teal") } = false
     ∧ updateTaskToolCalls
      { taskId := .str "t1", color := some (.str "teal") } = [])
    ∧ zodColorAccepts (.str "cyan") = true :=
  ⟨(color_enum_rejected_before_remote_call).2.1
    { taskId := .str "t1", color := some (.str "teal") } "teal" rfl
    (by decide),
   rfl⟩

/-- C7: for every list of n subtasks, the composite create issues exactly
one task-create call followed by exactly n subtask-add calls in input
order, and reports `totalSubtasks = n` with one insertion index per
subtask (0, 1, …, n-1) in input order. -/
theorem create_task_with_subtasks_sequence (newTaskId : String)
    (req : CreateTaskWithSubtasksRequest) :
    (createTaskWithSubtasks newTaskId req).2
      = .createTask req.name req.columnId req.description req.color
          req.position
        :: req.subtasks.map (fun s => .addSubtask newTaskId s)
    ∧ (createTaskWithSubtasks newTaskId req).1.totalSubtasks
        = req.subtasks.length
    ∧ (createTaskWithSubtasks newTaskId req).1.addedSubtasks.map
        AddedSubtask.name = req.subtasks.map SubtaskInput.name
    ∧ (createTaskWithSubtasks newTaskId req).1.addedSubtasks.map
        AddedSubtask.insertIndex = List.range req.subtasks.length := by
  refine ⟨rfl, rfl, ?_, ?_⟩
  · conv_rhs => rw [← List.enum_map_snd req.subtasks]
    simp only [createTaskWithSubtasks, List.map_map]
    rfl
  · conv_rhs => rw [← List.enum_map_fst req.subtasks]
    simp only [createTaskWithSubtasks, List.map_map]
    rfl

/-- Counterexample to C8 as stated: the declared position schema
`z.union([z.string(), z.number()])` accepts the arbitrary string
`"middle"`, which is neither a number nor the token "top" nor "bottom". -/
theorem position_schema_counterexample :
    zodPositionAccepts (.str "middle") = true
    ∧ JSValue.str "middle" ≠ JSValue.str "top"
    ∧ JSValue.str "middle" ≠ JSValue.str "bottom"
    ∧ ∀ n : Int, JSValue.str "middle" ≠ JSValue.num n :=
  ⟨rfl, by decide, by decide, fun n h => JSValue.noConfusion h⟩

/-- C8 (amended): the position schema of `update-task` and
`create-task-with-subtasks` accepts every string and every number (and
nothing else); in particular `"top"`, `"bottom"` and `0` are accepted. -/
theorem position_schema_accepts_strings_and_numbers :
    (∀ v : JSValue, zodPositionAccepts v = true ↔
      (∃ s, v = JSValue.str s) ∨ (∃ n, v = JSValue.num n))
    ∧ zodPositionAccepts (.str "top") = true
    ∧ zodPositionAccepts (.str "bottom") = true
    ∧ zodPositionAccepts (.num 0) = true := by
  refine ⟨?_, rfl, rfl, rfl⟩
  intro v
  cases v <;> simp [zodPositionAccepts]

/-- Counterexample to C9 as stated: a pre-existing configuration file that
parses but has no configured server (here `{}` with one unrelated
top-level entry) is overwritten without any backup copy being made. -/
theorem setup_backup_counterexample :
    (createCursorMcpConfig
      (.parsed { mcpServers := [], otherEntries := [("note", "keep")] })
      { command := some "node" }).2 = false := rfl

/-- C9 (amended): when the pre-existing configuration file parses as JSON,
the merged output preserves its top-level entries and every server entry
other than `"kanban-flow"` (which is set to the new entry), and a backup
copy is made exactly when the parsed file contained at least one server
entry. -/
theorem setup_merge_preserves_and_backs_up (cfg : McpConfig)
    (entry : ServerEntry) :
    (createCursorMcpConfig (.parsed cfg) entry).1.otherEntries
      = cfg.otherEntries
    ∧ (∀ k v, (k, v) ∈ cfg.mcpServers → k ≠ "kanban-flow" →
        (k, v) ∈ (createCursorMcpConfig (.parsed cfg) entry).1.mcpServers)
    ∧ ("kanban-flow", entry)
        ∈ (createCursorMcpConfig (.parsed cfg) entry).1.mcpServers
    ∧ ((createCursorMcpConfig (.parsed cfg) entry).2 = true
        ↔ cfg.mcpServers ≠ []) := by
  refine ⟨rfl, ?_, ?_, ?_⟩
  · intro k v hmem hk
    show (k, v) ∈ mergeServers cfg.mcpServers entry
    unfold mergeServers
    by_cases hany : cfg.mcpServers.any (fun p => p.1 = "kanban-flow")
    · rw [if_pos hany]
      have := List.mem_map_of_mem
        (fun p : String × ServerEntry =>
          if p.1 = "kanban-flow" then (p.1, entry) else p) hmem
      simpa [hk] using this
    · rw [if_neg hany]
      exact List.mem_append_left _ hmem
  · show ("kanban-flow", entry) ∈ mergeServers cfg.mcpServers entry
    unfold mergeServers
    by_cases hany : cfg.mcpServers.any (fun p => p.1 = "kanban-flow")
    · rw [if_pos hany]
      simp only [List.any_eq_true, decide_eq_true_eq] at hany
      obtain ⟨p, hp, he⟩ := hany
      have := List.mem_map_of_mem
        (fun p : String × ServerEntry =>
          if p.1 = "kanban-flow" then (p.1, entry) else p) hp
      simpa [he] using this
    · rw [if_neg hany]
      exact List.mem_append_right _ (by simp)
  · simp [createCursorMcpConfig, List.isEmpty_iff]

/-- Witness for C9 (amended): merging into a parsed file with one other
server preserves that server and the unrelated top-level entry, adds the
`kanban-flow` entry, and creates a backup. -/
theorem setup_merge_preserves_and_backs_up_witness :
    ("other", ({} : ServerEntry))
      ∈ (createCursorMcpConfig
          (.parsed { mcpServers := [("other", {})],
                     otherEntries := [("n", "v")] })
          { command := some "node" }).1.mcpServers
    ∧ ("kanban-flow", ({ command := some "node" } : ServerEntry))
        ∈ (createCursorMcpConfig
            (.parsed { mcpServers := [("other", {})],
                       otherEntries := [("n", "v")] })
            { command := some "node" }).1.mcpServers
    ∧ (createCursorMcpConfig
        (.parsed { mcpServers := [("other", {})],
                   otherEntries := [("n", "v")] })
        { command := some "node" }).2 = true := by
  have h := setup_merge_preserves_and_backs_up
    { mcpServers := [("other", {})], otherEntries := [("n", "v")] }
    { command := some "node" }
  exact ⟨h.2.1 "other" {} (by decide) (by decide), h.2.2.1,
    h.2.2.2.mpr (by decide)⟩

/-- C10: when the fetched task's numeric position is 0, the success
narratives of `get-task-details` and `update-task` are identical to those
of the same task with no position at all — the truthiness guard
`if (task.position)` treats 0 the same as absent, regardless of
`includePosition` — and the Position line is rendered exactly when the
position is a non-zero value. -/
theorem position_zero_line_omitted (t : KanbanTask) :
    (t.position = some 0 →
      formatTaskDetails t = formatTaskDetails { t with position := none }
      ∧ formatUpdateTask t = formatUpdateTask { t with position := none })
    ∧ (∀ p : Int, t.position = some p → p ≠ 0 →
        ("- Position: " ++ toString p) ∈ formatTaskDetails t
        ∧ ("- Position: " ++ toString p) ∈ formatUpdateTask t) := by
  constructor
  · intro h
    constructor <;>
      simp [formatTaskDetails, formatUpdateTask, h, jsTruthyNum]
  · intro p hp hne
    constructor <;>
      simp [formatTaskDetails, formatUpdateTask, hp, hne, jsTruthyNum]

/-- Witness for C10: a task at position 0 renders exactly the
position-free narrative, and a task at position 5 renders the Position
line. -/
theorem position_zero_line_omitted_witness :
    formatTaskDetails
      { id := "a", name := "T", columnId := "c", position := some 0 }
      = formatTaskDetails
        { id := "a", name := "T", columnId := "c", position := none }
    ∧ ("- Position: " ++ toString (5 : Int)) ∈ formatTaskDetails
        { id := "a", name := "T", columnId := "c", position := some 5 } := by
  constructor
  · have h := (position_zero_line_omitted
      { id := "a", name := "T", columnId := "c", position := some 0 }).1 rfl
    simpa using h.1
  · exact ((position_zero_line_omitted
      { id := "a", name := "T", columnId := "c", position := some 5 }).2
      5 rfl (by decide)).1

end KanbanMCP
